import Mathlib

set_option maxRecDepth 8000

/-! Shallow embedding of the text-parsing engine of the ba-copilot-mvp
backend (src/backend/services/requirements_extractor.py,
story_generator.py, criteria_generator.py), together with theorems that
settle the claims of the specification against it.

Python strings are modelled as Lean strings (with most work done on the
underlying character lists); Python dicts returned by the services are
modelled as structures; a dict key that is present only on some paths is
modelled as an Option field; raised exceptions are modelled with Except. -/

/-- Python whitespace (the default class of str.split and str.strip and of
the regex class backslash-s, restricted to the ASCII range used here). -/
def pySpace (c : Char) : Bool :=
  c = ' ' || c = '\t' || c = '\n' || c = '\r' || c = '\x0b' || c = '\x0c'

/-- The regex class backslash-d. -/
def isDigit10 (c : Char) : Bool := '0' ≤ c && c ≤ '9'

/-- The regex class [-*•] used by the bullet-aware requirement pattern, and
the argument of str.lstrip in the alternative parse. -/
def bulletCls (c : Char) : Bool := c = '-' || c = '*' || c = '•'

/-- The regex class [:.backslash-s] of the line-scan fallback pattern. -/
def colonDotSpace (c : Char) : Bool := c = ':' || c = '.' || pySpace c

/-- Boolean list-prefix test (executable counterpart of List.IsPrefix). -/
def listPre : List Char → List Char → Bool
  | [], _ => true
  | _ :: _, [] => false
  | a :: n, b :: h => a = b && listPre n h

/-- Python substring containment: the expression needle in haystack. -/
def subB (n : List Char) : List Char → Bool
  | [] => listPre n []
  | c :: t => listPre n (c :: t) || subB n t

/-- Python str.strip() on a character list. -/
def pyStripL (s : List Char) : List Char :=
  ((s.dropWhile pySpace).reverse.dropWhile pySpace).reverse

/-- Worker for splitWS; acc is the current word reversed. -/
def splitWSAux : List Char → List Char → List (List Char)
  | [], acc => if acc = [] then [] else [acc.reverse]
  | c :: t, acc =>
    if pySpace c then
      if acc = [] then splitWSAux t [] else acc.reverse :: splitWSAux t []
    else splitWSAux t (c :: acc)

/-- Python str.split() with no argument: maximal runs of non-whitespace. -/
def splitWS (s : List Char) : List (List Char) := splitWSAux s []

/-- Joining word lists with a single space (the join side of
' '.join(s.split())). -/
def joinSp : List (List Char) → List Char
  | [] => []
  | [w] => w
  | w :: ws => w ++ ' ' :: joinSp ws

/-- Python ' '.join(s.split()): collapse internal whitespace to single
spaces and trim the ends. -/
def collapseWSL (s : List Char) : List Char := joinSp (splitWS s)

/-- Python s.split(newline). -/
def pyLinesL : List Char → List (List Char)
  | [] => [[]]
  | c :: t =>
    if c = '\n' then [] :: pyLinesL t
    else
      match pyLinesL t with
      | [] => [[c]]
      | l :: ls => (c :: l) :: ls

/-- Python s.split(two hash marks), used by the requirements section
splitter. -/
def splitSections : List Char → List (List Char)
  | '#' :: '#' :: t => [] :: splitSections t
  | [] => [[]]
  | c :: t =>
    match splitSections t with
    | [] => [[c]]
    | l :: ls => (c :: l) :: ls

/-- Decimal digit character. -/
def digitChar (d : Nat) : Char := Char.ofNat (48 + d)

/-- Worker for natReprL; the fuel dominates the number of digits. -/
def natReprAux : Nat → Nat → List Char
  | 0, n => [digitChar (n % 10)]
  | Nat.succ fuel, n =>
    if n < 10 then [digitChar n]
    else natReprAux fuel (n / 10) ++ [digitChar (n % 10)]

/-- Python str(n) for a nonnegative integer. -/
def natReprL (n : Nat) : List Char := natReprAux n n

/-- Python format specifier 03d: zero-pad a decimal to width three. -/
def pad3 (n : Nat) : List Char :=
  let d := natReprL n
  List.replicate (3 - d.length) '0' ++ d

/-- Python int(s) on a nonempty digit string. -/
def natFromDigits (l : List Char) : Nat :=
  l.foldl (fun a c => a * 10 + (c.toNat - 48)) 0

/-- Python str.capitalize(): first character upper-cased, rest lowered. -/
def pyCapitalize (s : String) : String :=
  match s.data with
  | [] => ""
  | c :: t => (c.toUpper :: t.map Char.toLower).asString

/-- Abstract syntax of the concrete Python regexes used by the services.
Quantifiers range over single-character classes only, which is enough for
every pattern in the source and keeps the matcher structurally
terminating. -/
inductive RE where
  | eps : RE
  | lit : List Char → RE
  | liti : List Char → RE
  | one : (Char → Bool) → RE
  | starG : (Char → Bool) → RE
  | plusG : (Char → Bool) → RE
  | plusL : (Char → Bool) → RE
  | seq : RE → RE → RE
  | alt : RE → RE → RE
  | grp : RE → RE
  | look : RE → RE
  | dollar : RE
  | endz : RE

/-- Backtracking matcher: all ways a regex can match at the head of the
input, in backtracking priority order (greedy = longest first, lazy =
shortest first, alternation = left first), each as the pair of the
remaining input and the captured groups in order.  liti is a
case-insensitive literal given in lower case; dollar is the Python
end-of-string anchor (also matching just before a final newline); endz is
the backslash-Z anchor. -/
def mtch : RE → List Char → List (List Char × List (List Char))
  | .eps, s => [(s, [])]
  | .lit cs, s =>
    if s.take cs.length = cs then [(s.drop cs.length, [])] else []
  | .liti cs, s =>
    if (s.take cs.length).map Char.toLower = cs then
      [(s.drop cs.length, [])]
    else []
  | .one p, s =>
    match s with
    | [] => []
    | c :: t => if p c then [(t, [])] else []
  | .starG p, s =>
    let m := (s.takeWhile p).length
    (List.range (m + 1)).map (fun k => (s.drop (m - k), []))
  | .plusG p, s =>
    let m := (s.takeWhile p).length
    (List.range m).map (fun k => (s.drop (m - k), []))
  | .plusL p, s =>
    let m := (s.takeWhile p).length
    (List.range m).map (fun k => (s.drop (k + 1), []))
  | .seq a b, s =>
    (mtch a s).flatMap
      (fun pr => (mtch b pr.1).map (fun qr => (qr.1, pr.2 ++ qr.2)))
  | .alt a b, s => mtch a s ++ mtch b s
  | .grp r, s =>
    (mtch r s).map (fun pr => (pr.1, pr.2 ++ [s.take (s.length - pr.1.length)]))
  | .look r, s => if (mtch r s).isEmpty then [] else [(s, [])]
  | .dollar, s => if s = [] || s = [ '\n' ] then [(s, [])] else []
  | .endz, s => if s = [] then [(s, [])] else []

/-- re.search: first match over start positions, returning its groups. -/
def searchRE (r : RE) : List Char → Option (List (List Char))
  | [] => ((mtch r []).head?).map (fun pr => pr.2)
  | c :: t =>
    match (mtch r (c :: t)).head? with
    | some pr => some pr.2
    | none => searchRE r t

/-- Worker for findallRE; the fuel bounds the number of scan steps (every
pattern passed to it consumes at least one character per match, so
length + 1 steps always suffice). -/
def findallAux (r : RE) : Nat → List Char → List (List (List Char))
  | 0, _ => []
  | Nat.succ fuel, s =>
    match (mtch r s).head? with
    | some pr => pr.2 :: findallAux r fuel pr.1
    | none =>
      match s with
      | [] => []
      | _ :: t => findallAux r fuel t

/-- re.findall: group tuples of all non-overlapping matches, left to
right. -/
def findallRE (r : RE) (s : List Char) : List (List (List Char)) :=
  findallAux r (s.length + 1) s

/-- findall for a pattern with exactly one group. -/
def findall1 (r : RE) (s : List Char) : List (List Char) :=
  (findallRE r s).map (fun g => g.headD [])

/-- findall for a pattern with exactly two groups. -/
def findall2 (r : RE) (s : List Char) : List (List Char × List Char) :=
  (findallRE r s).map (fun g => (g.headD [], (g.drop 1).headD []))

/-- Worker for resplitRE (same fuel discipline as findallAux). -/
def resplitAux (r : RE) : Nat → List Char → List Char → List (List Char)
  | 0, acc, s => [acc.reverse ++ s]
  | Nat.succ fuel, acc, s =>
    match (mtch r s).head? with
    | some pr => acc.reverse :: (pr.2 ++ resplitAux r fuel [] pr.1)
    | none =>
      match s with
      | [] => [acc.reverse]
      | c :: t => resplitAux r fuel (c :: acc) t

/-- re.split: the segments between matches, with the captured groups of
each match spliced in between, as Python does for patterns with groups. -/
def resplitRE (r : RE) (s : List Char) : List (List Char) :=
  resplitAux r (s.length + 1) [] s

/-- Sequence a list of regex fragments. -/
def seqL (l : List RE) : RE := l.foldr RE.seq RE.eps

/-! ## Acceptance-criteria generator (criteria_generator.py) -/

/-- One parsed Given-When-Then scenario (the dictionary built by
AcceptanceCriteriaGenerator._extract_given_when_then). -/
structure Criteria where
  scenario_name : String
  given_clause : String
  when_clause : String
  then_clause : String
deriving DecidableEq, Repr

/-- The scenario-header split pattern of _parse_criteria. -/
def scenarioRE : RE :=
  seqL [ .lit "**Scenario ".data, .plusG isDigit10, .lit ":".data,
    .grp (.plusG (fun c => c != '*')), .lit "**".data ]

/-- The GIVEN clause pattern (IGNORECASE, DOTALL). -/
def givenRE : RE :=
  seqL [ .lit "-".data, .starG pySpace, .liti "given".data, .plusG pySpace,
    .grp (.plusL (fun _ => true)),
    .look (.alt (seqL [ .lit "-".data, .starG pySpace,
      .alt (.liti "and".data) (.liti "when".data) ]) .dollar) ]

/-- The AND-after-GIVEN pattern (IGNORECASE, DOTALL). -/
def givenAndRE : RE :=
  seqL [ .liti "given".data, .plusL (fun _ => true), .lit "-".data,
    .starG pySpace, .liti "and".data, .plusG pySpace,
    .grp (.plusL (fun _ => true)),
    .look (seqL [ .lit "-".data, .starG pySpace, .liti "when".data ]) ]

/-- The WHEN clause pattern (IGNORECASE, DOTALL). -/
def whenRE : RE :=
  seqL [ .lit "-".data, .starG pySpace, .liti "when".data, .plusG pySpace,
    .grp (.plusL (fun _ => true)),
    .look (.alt (seqL [ .lit "-".data, .starG pySpace,
      .alt (.liti "and".data) (.liti "then".data) ]) .dollar) ]

/-- The AND-after-WHEN pattern (IGNORECASE, DOTALL). -/
def whenAndRE : RE :=
  seqL [ .liti "when".data, .plusL (fun _ => true), .lit "-".data,
    .starG pySpace, .liti "and".data, .plusG pySpace,
    .grp (.plusL (fun _ => true)),
    .look (seqL [ .lit "-".data, .starG pySpace, .liti "then".data ]) ]

/-- The THEN clause pattern (IGNORECASE, DOTALL). -/
def thenRE : RE :=
  seqL [ .lit "-".data, .starG pySpace, .liti "then".data, .plusG pySpace,
    .grp (.plusL (fun _ => true)),
    .look (.alt (seqL [ .lit "-".data, .starG pySpace,
      .alt (.liti "and".data) (.lit "**".data) ]) .dollar) ]

/-- The AND-after-THEN pattern (IGNORECASE, DOTALL). -/
def thenAndRE : RE :=
  seqL [ .liti "then".data, .plusL (fun _ => true), .lit "-".data,
    .starG pySpace, .liti "and".data, .plusG pySpace,
    .grp (.plusL (fun _ => true)),
    .look (.alt (seqL [ .lit "-".data, .starG pySpace, .lit "**".data ]) .endz) ]

/-- ' AND '.join. -/
def joinAND : List (List Char) → List Char
  | [] => []
  | [x] => x
  | x :: xs => x ++ " AND ".data ++ joinAND xs

/-- The given field computed by _extract_given_when_then: primary and
AND-continuation matches, each whitespace-normalized, joined with
' AND '; empty when there is no match at all. -/
def given_of (content : String) : String :=
  let allG := findall1 givenRE content.data ++ findall1 givenAndRE content.data
  if allG = [] then ""
  else (joinAND (allG.map (fun g => collapseWSL (pyStripL g)))).asString

/-- The when field computed by _extract_given_when_then. -/
def when_of (content : String) : String :=
  let allW := findall1 whenRE content.data ++ findall1 whenAndRE content.data
  if allW = [] then ""
  else (joinAND (allW.map (fun w => collapseWSL (pyStripL w)))).asString

/-- The then field computed by _extract_given_when_then. -/
def then_of (content : String) : String :=
  let allT := findall1 thenRE content.data ++ findall1 thenAndRE content.data
  if allT = [] then ""
  else (joinAND (allT.map (fun t => collapseWSL (pyStripL t)))).asString

/-- _extract_given_when_then: a scenario record, or None unless all three
of given/when/then are non-empty. -/
def extract_given_when_then (sname : String) (content : String) : Option Criteria :=
  let g := given_of content
  let w := when_of content
  let t := then_of content
  if g ≠ "" ∧ w ≠ "" ∧ t ≠ "" then some ⟨sname, g, w, t⟩ else none

/-- Adjacent (name, content) pairs of the re.split output, as iterated by
the range(1, len, 2) loop of _parse_criteria. -/
def pairGo : List (List Char) → List (List Char × List Char)
  | a :: b :: r => (a, b) :: pairGo r
  | _ => []

/-- The (stripped name, stripped content) scenario pairs of
_parse_criteria. -/
def scenario_pairs (text : String) : List (String × String) :=
  match resplitRE scenarioRE text.data with
  | [] => []
  | _ :: rest =>
    (pairGo rest).map (fun pr => ((pyStripL pr.1).asString, (pyStripL pr.2).asString))

/-- _parse_criteria. -/
def parse_criteria (text : String) : List Criteria :=
  (scenario_pairs text).filterMap (fun pr => extract_given_when_then pr.1 pr.2)

/-- The dictionary returned by AcceptanceCriteriaGenerator.generate on a
successful model response. -/
structure CriteriaResult where
  criteria : List Criteria
  raw_output : String
  total_scenarios : Nat
deriving DecidableEq, Repr

/-- AcceptanceCriteriaGenerator.generate applied to a model response. -/
def generate_criteria (text : String) : CriteriaResult :=
  ⟨parse_criteria text, text, (parse_criteria text).length⟩

/-! ## Requirements extractor (requirements_extractor.py) -/

/-- One parsed requirement record. -/
structure Requirement where
  req_code : String
  req_type : String
  description : String
deriving DecidableEq, Repr

/-- The capture group for a structured requirement code: PREFIX-digits. -/
def codeRE (p : List Char) : RE :=
  .grp (seqL [ .lit p, .lit "-".data, .plusG isDigit10 ])

/-- Pattern 1 of _extract_requirement_items: bulleted CODE: text. -/
def reqPat1 (p : List Char) : RE :=
  seqL [ .one bulletCls, .starG pySpace, codeRE p, .lit ":".data,
    .starG pySpace, .grp (.plusL (fun _ => true)),
    .look (.alt (seqL [ .lit "\n".data, .one bulletCls, .starG pySpace,
      .lit p, .lit "-".data, .plusG isDigit10, .lit ":".data ])
      (.alt (.lit "\n##".data) .endz)) ]

/-- Pattern 2 of _extract_requirement_items: unbulleted CODE: text. -/
def reqPat2 (p : List Char) : RE :=
  seqL [ .lit "\n".data, codeRE p, .lit ":".data, .starG pySpace,
    .grp (.plusL (fun _ => true)),
    .look (.alt (seqL [ .lit "\n".data, .lit p, .lit "-".data,
      .plusG isDigit10, .lit ":".data ])
      (.alt (.lit "\n##".data) .endz)) ]

/-- Pattern 3 of _extract_requirement_items: bold CODE: text. -/
def reqPat3 (p : List Char) : RE :=
  seqL [ .lit "**".data, codeRE p, .lit "**:".data, .starG pySpace,
    .grp (.plusL (fun _ => true)),
    .look (.alt (seqL [ .lit "\n**".data, .lit p, .lit "-".data,
      .plusG isDigit10 ])
      (.alt (.lit "\n##".data) .endz)) ]

/-- The looser line-scan pattern of the fallback branch:
(PREFIX-optional-hyphen-digits)[:.whitespace]+(rest). -/
def fallbackRE (p : List Char) : RE :=
  seqL [ .grp (seqL [ .lit p, .alt (.lit "-".data) .eps, .plusG isDigit10 ]),
    .plusG colonDotSpace, .grp (.plusG (fun c => c != '\n')) ]

/-- The per-match body of the processing loop of
_extract_requirement_items: strip the two groups, re-prefix a code
lacking a hyphen, collapse whitespace in the description, and keep the
record only when the description is non-empty with length over 10. -/
def process_match (p : List Char) (m : List Char × List Char) : Option Requirement :=
  let rc0 := pyStripL m.1
  let d0 := pyStripL m.2
  let rc := if rc0.contains '-' then rc0 else p ++ '-' :: rc0
  let d := collapseWSL d0
  if d ≠ [] ∧ 10 < d.length then
    some ⟨rc.asString, if p = "FR".data then "Functional" else "Non-Functional", d.asString⟩
  else none

/-- The line-by-line fallback scan of _extract_requirement_items: any
stripped line containing the code marker and a colon is re-parsed with
the looser pattern. -/
def fallback_scan (p : List Char) (sectionText : List Char) : List (List Char × List Char) :=
  (pyLinesL sectionText).foldr
    (fun line acc =>
      let l := pyStripL line
      if subB p l && subB [ ':' ] l then
        match searchRE (fallbackRE p) l with
        | some g => (g.headD [], (g.drop 1).headD []) :: acc
        | none => acc
      else acc) []

/-- _extract_requirement_items: the three ordered patterns, stopping at
the first that matches, then the line-scan fallback, then the match
processing loop. -/
def extract_requirement_items (sectionText : String) (p : String) : List Requirement :=
  let m1 := findall2 (reqPat1 p.data) sectionText.data
  let ms :=
    if m1 ≠ [] then m1 else
    let m2 := findall2 (reqPat2 p.data) sectionText.data
    if m2 ≠ [] then m2 else
    let m3 := findall2 (reqPat3 p.data) sectionText.data
    if m3 ≠ [] then m3 else fallback_scan p.data sectionText.data
  ms.filterMap (process_match p.data)

/-- The functional-section test of _parse_requirements (and the header
test of the alternative parse): exact-case substring containment of the
two listed spellings. -/
def isFunctionalSection (s : List Char) : Bool :=
  subB "Functional Requirements".data s || subB "FUNCTIONAL REQUIREMENTS".data s

/-- The non-functional-section test of _parse_requirements (three listed
spellings). -/
def isNonFunctionalSection (s : List Char) : Bool :=
  subB "Non-Functional Requirements".data s ||
  subB "NON-FUNCTIONAL REQUIREMENTS".data s ||
  subB "Non Functional Requirements".data s

/-- The dictionary shape shared by _parse_requirements,
_alternative_parse and extract; raw_output is Option-valued because the
key is present only when extract adds it on the primary path. -/
structure ReqStruct where
  functional : List Requirement
  non_functional : List Requirement
  total_count : Nat
  raw_output : Option String
deriving DecidableEq, Repr

/-- _parse_requirements: split on section markers and classify each
stripped section, the later assignment overwriting the earlier one. -/
def parse_requirements (text : String) : ReqStruct :=
  let pair := (splitSections text.data).foldl
    (fun acc sec =>
      let s := pyStripL sec
      if isFunctionalSection s then (extract_requirement_items s.asString "FR", acc.2)
      else if isNonFunctionalSection s then (acc.1, extract_requirement_items s.asString "NFR")
      else acc) ([], [])
  ⟨pair.1, pair.2, pair.1.length + pair.2.length, none⟩

/-- The non-functional header test of _alternative_parse (two listed
spellings only). -/
def isNonFunctionalLine (l : List Char) : Bool :=
  subB "Non-Functional Requirements".data l ||
  subB "NON-FUNCTIONAL REQUIREMENTS".data l

/-- Bulleted-line test of _alternative_parse: startswith for each of the
three bullet characters. -/
def bulletStart (l : List Char) : Bool :=
  match l with
  | [] => false
  | c :: _ => bulletCls c

/-- The stateful line loop of _alternative_parse, carrying the two
in-section flags and the two sequential counters. -/
def altGo : Bool → Bool → Nat → Nat → List (List Char) → List Requirement × List Requirement
  | _, _, _, _, [] => ([], [])
  | inF, inNF, frC, nfrC, line :: rest =>
    let l := pyStripL line
    if isFunctionalSection l then altGo true false frC nfrC rest
    else if isNonFunctionalLine l then altGo false true frC nfrC rest
    else if listPre "##".data l then altGo false false frC nfrC rest
    else if l ≠ [] ∧ 20 < l.length ∧ bulletStart l = true then
      let d := (pyStripL (l.dropWhile bulletCls)).asString
      if inF then
        let pr := altGo inF inNF (frC + 1) nfrC rest
        (⟨( "FR-".data ++ pad3 frC).asString, "Functional", d⟩ :: pr.1, pr.2)
      else if inNF then
        let pr := altGo inF inNF frC (nfrC + 1) rest
        (pr.1, ⟨( "NFR-".data ++ pad3 nfrC).asString, "Non-Functional", d⟩ :: pr.2)
      else altGo inF inNF frC nfrC rest
    else altGo inF inNF frC nfrC rest

/-- _alternative_parse (note: it returns no raw_output entry). -/
def alternative_parse (text : String) : ReqStruct :=
  let pr := altGo false false 1 1 (pyLinesL text.data)
  ⟨pr.1, pr.2, pr.1.length + pr.2.length, none⟩

/-- The per-response body of extract: structured parse, raw_output
attached, and the alternative parse replacing the whole structure when
the structured parse counted zero requirements. -/
def extract_result (text : String) : ReqStruct :=
  let requirements := parse_requirements text
  let requirements := { requirements with raw_output := some text }
  if requirements.total_count = 0 then alternative_parse text else requirements

/-- One call to the generation capability: returned text or raised
message. -/
inductive GenOutcome where
  | ok : String → GenOutcome
  | err : String → GenOutcome

/-- The transient-overload test of extract: '503' in the message or
'overloaded' in its lower-cased form. -/
def isOverload (msg : String) : Bool :=
  subB "503".data msg.data || subB "overloaded".data (msg.data.map Char.toLower)

/-- Terminal outcome of RequirementsExtractor.extract. -/
inductive ExtractOutcome where
  | ok : ReqStruct → ExtractOutcome
  | error : String → ExtractOutcome
deriving DecidableEq, Repr

/-- A run of extract: the backoff waits performed (in seconds, in order)
and the final outcome. -/
structure RunResult where
  waits : List Nat
  result : ExtractOutcome
deriving DecidableEq, Repr

/-- The user-facing message raised after the last in-loop overload. -/
def overloadedFinalMsg : String :=
  "Gemini API is currently overloaded. Please try again in a few minutes."

/-- The retry loop of extract: max_retries = 3 attempts in total; on an
overload signal before the last attempt, wait retry_delay * (attempt + 1)
seconds and continue; on the last attempt's overload or on any other
failure, raise. -/
def extractGo : Nat → Nat → (Nat → GenOutcome) → List Nat → RunResult
  | 0, _, _, waits =>
    ⟨waits.reverse, .error "Failed to extract requirements after multiple retries"⟩
  | Nat.succ n, i, gen, waits =>
    match gen i with
    | .ok t => ⟨waits.reverse, .ok (extract_result t)⟩
    | .err m =>
      if isOverload m then
        if 0 < n then extractGo n (i + 1) gen (2 * (i + 1) :: waits)
        else ⟨waits.reverse, .error overloadedFinalMsg⟩
      else ⟨waits.reverse, .error ( "Requirements extraction error: " ++ m)⟩

/-- RequirementsExtractor.extract, with the generation capability
abstracted as the sequence of outcomes of its successive calls. -/
def extract_run (gen : Nat → GenOutcome) : RunResult := extractGo 3 0 gen []

/-! ## User-story generator (story_generator.py) -/

/-- One parsed user story (defaults as initialized by
_extract_story_fields). -/
structure Story where
  story_code : String
  title : String
  user_story : String
  priority : String
  story_points : Nat
  dependencies : String
  notes : String
deriving DecidableEq, Repr

/-- The Story ID pattern (IGNORECASE). -/
def storyIdRE : RE :=
  seqL [ .liti "**story id**:".data, .starG pySpace,
    .grp (seqL [ .liti "us".data, .lit "-".data, .plusG isDigit10 ]) ]

/-- The Title pattern (IGNORECASE, no DOTALL). -/
def titleRE : RE :=
  seqL [ .liti "**title**:".data, .starG pySpace,
    .grp (.plusL (fun c => c != '\n')),
    .look (.alt (.lit "\n**".data) (.alt (.lit "\n".data) .dollar)) ]

/-- The User Story pattern (IGNORECASE, DOTALL). -/
def userStoryRE : RE :=
  seqL [ .liti "**user story**:".data, .starG pySpace,
    .grp (.plusL (fun _ => true)),
    .look (.alt (.lit "\n**".data) (.alt (.lit "\n---".data) .endz)) ]

/-- The Priority pattern (IGNORECASE). -/
def priorityRE : RE :=
  seqL [ .liti "**priority**:".data, .starG pySpace,
    .grp (.alt (.liti "high".data) (.alt (.liti "medium".data) (.liti "low".data))) ]

/-- The Story Points pattern (IGNORECASE). -/
def pointsRE : RE :=
  seqL [ .liti "**story points**:".data, .starG pySpace, .grp (.plusG isDigit10) ]

/-- The Dependencies pattern (IGNORECASE, no DOTALL). -/
def depsRE : RE :=
  seqL [ .liti "**dependencies**:".data, .starG pySpace,
    .grp (.plusL (fun c => c != '\n')),
    .look (.alt (.lit "\n**".data) (.alt (.lit "\n".data) .dollar)) ]

/-- The Notes pattern (IGNORECASE, DOTALL). -/
def notesRE : RE :=
  seqL [ .liti "**notes**:".data, .starG pySpace,
    .grp (.plusL (fun _ => true)),
    .look (.alt (.lit "\n**".data) (.alt (.lit "\n---".data) .endz)) ]

/-- _extract_story_fields: seven independent field searches over one
block, with the documented defaults when a field is missing. -/
def extract_story_fields (block : String) : Story :=
  let b := block.data
  let story_code :=
    match searchRE storyIdRE b with
    | some g => (g.headD []).asString
    | none => ""
  let title :=
    match searchRE titleRE b with
    | some g => (pyStripL (g.headD [])).asString
    | none => ""
  let user_story :=
    match searchRE userStoryRE b with
    | some g => (collapseWSL (pyStripL (g.headD []))).asString
    | none => ""
  let priority :=
    match searchRE priorityRE b with
    | some g => pyCapitalize (g.headD []).asString
    | none => "Medium"
  let story_points :=
    match searchRE pointsRE b with
    | some g => natFromDigits (g.headD [])
    | none => 0
  let dependencies :=
    match searchRE depsRE b with
    | some g => (pyStripL (g.headD [])).asString
    | none => "None"
  let notes :=
    match searchRE notesRE b with
    | some g => (collapseWSL (pyStripL (g.headD []))).asString
    | none => ""
  ⟨story_code, title, user_story, priority, story_points, dependencies, notes⟩

/-- The story-separator split pattern of _parse_user_stories: a newline,
three or more dashes, a newline. -/
def dashSplitRE : RE :=
  seqL [ .lit "\n--".data, .plusG (fun c => c = '-'), .lit "\n".data ]

/-- The block list produced by the separator split. -/
def story_blocks (text : String) : List (List Char) :=
  resplitRE dashSplitRE text.data

/-- _parse_user_stories: split into blocks, skip stripped blocks shorter
than 50 characters, extract fields, keep only stories with a code. -/
def parse_user_stories (text : String) : List Story :=
  (story_blocks text).filterMap (fun blk =>
    let b := pyStripL blk
    if b = [] ∨ b.length < 50 then none
    else
      let story := extract_story_fields b.asString
      if story.story_code ≠ "" then some story else none)

/-- The dictionary returned by UserStoryGenerator.generate on a
successful model response. -/
structure StoriesResult where
  stories : List Story
  raw_output : String
  total_count : Nat
deriving DecidableEq, Repr

/-- UserStoryGenerator.generate applied to a model response. -/
def generate_stories (text : String) : StoriesResult :=
  ⟨parse_user_stories text, text, (parse_user_stories text).length⟩

/-- The fixed CSV header line of format_for_jira. -/
def jiraHeader : String := "Summary,Description,Priority,Story Points,Issue Type"

/-- One CSV data row of format_for_jira: title and narrative wrapped in
double quotes (with no escaping of embedded quotes), priority, points and
the literal Story unquoted. -/
def jiraRow (s : Story) : String :=
  "\"" ++ s.title ++ "\",\"" ++ s.user_story ++ "\"," ++ s.priority ++ ","
    ++ (natReprL s.story_points).asString ++ ",Story"

/-- newline.join. -/
def joinNL : List String → String
  | [] => ""
  | [x] => x
  | x :: xs => x ++ "\n" ++ joinNL xs

/-- UserStoryGenerator.format_for_jira on a story batch. -/
def format_for_jira (stories : List Story) : String :=
  joinNL (jiraHeader :: stories.map jiraRow)

/-! ## A standard CSV record reader, used to state what it means for a
formatted row to keep (or lose) its field structure.  This is the
specification-side model for the escaping claim: a quoted field ends at
the first unescaped double quote, an embedded quote must be doubled, and
after a closing quote only a comma or the end of the record may follow. -/

/-- Scanner states: at a field start, inside an unquoted field, inside a
quoted field, after a closing quote. -/
inductive CsvSt where
  | start : CsvSt
  | unq : CsvSt
  | inq : CsvSt
  | postq : CsvSt

/-- CSV record scanner; cur is the current field reversed, fs the
finished fields reversed. -/
def csvScan : CsvSt → List Char → List Char → List (List Char) → Option (List (List Char))
  | .inq, [], _, _ => none
  | _, [], cur, fs => some ((cur.reverse :: fs).reverse)
  | .start, c :: t, cur, fs =>
    if c = '"' then csvScan .inq t cur fs
    else if c = ',' then csvScan .start t [] (cur.reverse :: fs)
    else csvScan .unq t (c :: cur) fs
  | .unq, c :: t, cur, fs =>
    if c = '"' then none
    else if c = ',' then csvScan .start t [] (cur.reverse :: fs)
    else csvScan .unq t (c :: cur) fs
  | .inq, '"' :: '"' :: t2, cur, fs => csvScan .inq t2 ('"' :: cur) fs
  | .inq, '"' :: t, cur, fs => csvScan .postq t cur fs
  | .inq, c :: t, cur, fs => csvScan .inq t (c :: cur) fs
  | .postq, c :: t, cur, fs =>
    if c = ',' then csvScan .start t [] (cur.reverse :: fs)
    else none

/-- Parse one CSV record into its field list; none when the record is
structurally broken. -/
def parse_csv_row (s : List Char) : Option (List (List Char)) :=
  csvScan .start s [] []

/-- The requirement-code format of the specification: full match of
(FR|NFR)-digits. -/
def reqCodeOK (s : String) : Bool :=
  (listPre "FR-".data s.data && (s.data.drop 3) ≠ [] && (s.data.drop 3).all isDigit10) ||
  (listPre "NFR-".data s.data && (s.data.drop 4) ≠ [] && (s.data.drop 4).all isDigit10)

/-- The story-code format of the specification: full match of
US-digits. -/
def storyCodeOK (s : String) : Bool :=
  listPre "US-".data s.data && (s.data.drop 3) ≠ [] && (s.data.drop 3).all isDigit10

/-! ## Concrete inputs used by the claim theorems -/

/-- The continuation-scoping scenario of the specification. -/
def c6Text : String := "**Scenario 1: Login**\n- GIVEN user is on login page\n- AND has valid account\n- WHEN user submits credentials\n- THEN user is redirected to dashboard"

/-- A scenario block with GIVEN and WHEN clauses but no THEN clause. -/
def c1NoThenText : String := "**Scenario 1: Login**\n- GIVEN user is on login page\n- WHEN user submits credentials"

/-- A functional section whose only requirement line carries a code with
no hyphen, so that only the line-scan fallback matches it. -/
def c3Section : String := "Functional Requirements\nFR7: Must support single sign-on"

/-- A response with one functional and one non-functional section in the
standard spellings. -/
def c5Text : String := "## Functional Requirements\n- FR-1: Users can log in with email\n## Non-Functional Requirements\n- NFR-1: System responds within two seconds"

/-- A response whose structured parse is empty and whose only bulleted
line under the functional header is a long dash run followed by a single
letter. -/
def c8Text : String := "Functional Requirements\n---------------------a"

/-- A complete 168-character story block. -/
def c7BlockA : String := "**Story ID**: US-001\n**Title**: Login feature\n**User Story**: As a user I want to log in so that I can access my account\n**Priority**: High\n**Story Points**: 3"

/-- A second complete story block. -/
def c7BlockB : String := "**Story ID**: US-002\n**Title**: Logout feature\n**User Story**: As a user I want to log out so that my session ends safely"

/-- A 30-character story block. -/
def c7ShortB : String := "**Story ID**: US-002 tiny one!"

/-- The record parsed from c7BlockA. -/
def c7StoryA : Story := ⟨ "US-001", "Login feature", "As a user I want to log in so that I can access my account", "High", 3, "None", "" ⟩

/-- A story whose title embeds a double-quote character. -/
def c9Story : Story := ⟨ "US-001", "He said \"hi\" and left", "As a user I want quotes", "High", 2, "None", "" ⟩

/-- A story whose visible fields contain no newline, so each CSV row is
one line of the formatted output. -/
def rowNLFree (st : Story) : Prop :=
  ('\n' ∈ st.title.data → False) ∧ ('\n' ∈ st.user_story.data → False)
    ∧ ('\n' ∈ st.priority.data → False)

/-- A word produced by whitespace splitting: non-empty and free of
whitespace characters. -/
def goodWord (w : List Char) : Prop :=
  w ≠ [] ∧ ∀ c ∈ w, pySpace c = false

/-! ## Helper lemmas and claim theorems -/

/-- The completeness gate of _extract_given_when_then, stated on the
three field extractors it combines. -/
theorem extract_gwt_isSome (n c : String) :
    (extract_given_when_then n c).isSome = true ↔
      (given_of c ≠ "" ∧ when_of c ≠ "" ∧ then_of c ≠ "") := by
  by_cases h : given_of c ≠ "" ∧ when_of c ≠ "" ∧ then_of c ≠ ""
  · simp [extract_given_when_then, h]
  · simp only [extract_given_when_then, if_neg h, Option.isSome_none,
      Bool.false_eq_true, false_iff]
    exact h

/-- Claim C1: a scenario record is included in the parser output if and
only if all three extracted given/when/then strings are non-empty; the
parser is exactly the per-pair filter of the gate over the scenario
split; in particular a block with GIVEN and WHEN but no THEN yields no
record at all. -/
theorem c1_completeness_gate :
    (∀ n c : String, (extract_given_when_then n c).isSome = true ↔
        (given_of c ≠ "" ∧ when_of c ≠ "" ∧ then_of c ≠ ""))
    ∧ (∀ text : String, parse_criteria text
        = (scenario_pairs text).filterMap (fun pr => extract_given_when_then pr.1 pr.2))
    ∧ parse_criteria c1NoThenText = [] :=
  ⟨extract_gwt_isSome, fun _ => rfl, by decide⟩

/-- Claim C6: on the four-line scenario of the specification, AND
continuations attach only to their preceding clause and are joined with
the literal separator after whitespace normalization. -/
theorem c6_scenario_scoping :
    parse_criteria c6Text
      = [ ⟨ "Login", "user is on login page AND has valid account",
            "user submits credentials", "user is redirected to dashboard" ⟩ ] := by
  decide

/-- Claim C10: in every parse path of the three pipelines the reported
count equals the length of the returned record lists. -/
theorem c10_count_consistency (text : String) :
    (parse_requirements text).total_count
      = (parse_requirements text).functional.length
        + (parse_requirements text).non_functional.length
    ∧ (alternative_parse text).total_count
      = (alternative_parse text).functional.length
        + (alternative_parse text).non_functional.length
    ∧ (generate_stories text).total_count = (generate_stories text).stories.length
    ∧ (generate_criteria text).total_scenarios = (generate_criteria text).criteria.length :=
  ⟨rfl, rfl, rfl, rfl⟩

/-- Claim C4 (amended): the returned structure carries raw_output equal
to the response text exactly when the structured parse found at least one
requirement; when the alternative parse supplies the returned structure
the raw_output entry is absent. -/
theorem c4_raw_output_amended (text : String) :
    (extract_result text).raw_output
      = if (parse_requirements text).total_count = 0 then none else some text := by
  unfold extract_result
  by_cases h : (parse_requirements text).total_count = 0
  · simp [h, alternative_parse]
  · simp [h]

/-- Claim C4, counterexample: a response on which the structured parse
counts zero requirements is returned through the alternative parse with
no raw_output entry at all. -/
theorem c4_raw_output_counterexample :
    (parse_requirements "hello").total_count = 0
    ∧ (extract_result "hello").raw_output = none
    ∧ (extract_result "hello").raw_output ≠ some "hello" := by
  decide

/-- Claim C2 (amended): two consecutive transient overloads followed by a
success produce exactly two backoff waits (2s then 4s) and then the parse
of the successful response; a third consecutive overload exhausts the
three attempts and raises the fatal overload error with no further
retry. -/
theorem c2_retry_amended (m1 m2 mz t : String)
    (h1 : isOverload m1 = true) (h2 : isOverload m2 = true)
    (h3 : isOverload mz = true) :
    extract_run (fun i => if i = 0 then .err m1 else if i = 1 then .err m2 else .ok t)
      = ⟨ [2, 4], .ok (extract_result t) ⟩
    ∧ extract_run (fun i => if i = 0 then .err m1 else if i = 1 then .err m2 else .err mz)
      = ⟨ [2, 4], .error overloadedFinalMsg ⟩ := by
  constructor <;> simp [extract_run, extractGo, h1, h2, h3]

/-- Witness for c2_retry_amended at concrete messages. -/
theorem c2_retry_witness :
    (isOverload "503 Service Unavailable" = true
      ∧ isOverload "The model is overloaded" = true
      ∧ isOverload "503 again" = true)
    ∧ (extract_run (fun i => if i = 0 then .err "503 Service Unavailable"
          else if i = 1 then .err "The model is overloaded" else .ok "OK body")
        = ⟨ [2, 4], .ok (extract_result "OK body") ⟩
      ∧ extract_run (fun i => if i = 0 then .err "503 Service Unavailable"
          else if i = 1 then .err "The model is overloaded" else .err "503 again")
        = ⟨ [2, 4], .error overloadedFinalMsg ⟩) :=
  ⟨⟨by decide, by decide, by decide⟩,
    c2_retry_amended "503 Service Unavailable" "The model is overloaded"
      "503 again" "OK body" (by decide) (by decide) (by decide)⟩

/-- Claim C2, counterexample: three consecutive overloads followed by a
success do not produce three waits and the successful parse; the third
overload is already fatal, after only the waits 2s and 4s. -/
theorem c2_retry_counterexample :
    extract_run (fun i => if i < 3 then GenOutcome.err "503 Service Unavailable"
        else GenOutcome.ok "OK body")
      = ⟨ [2, 4], .error overloadedFinalMsg ⟩
    ∧ (extract_run (fun i => if i < 3 then GenOutcome.err "503 Service Unavailable"
        else GenOutcome.ok "OK body")).waits ≠ [2, 4, 6] := by
  decide

/-- Claim C3: evaluation at the failing input.  The line-scan fallback
captures the hyphen-less code FR7 and the re-prefixing step turns it into
FR-FR7, which does not match the required (FR|NFR)-digits format. -/
theorem c3_code_format_failing_eval :
    extract_requirement_items c3Section "FR"
      = [ ⟨ "FR-FR7", "Functional", "Must support single sign-on" ⟩ ]
    ∧ reqCodeOK "FR-FR7" = false := by
  decide

/-- Claim C5, counterexample: on a response with both standard sections,
the non-functional section also satisfies the functional substring test,
so its items are re-extracted with the FR marker and overwrite the
functional list, and the non-functional list stays empty. -/
theorem c5_classification_counterexample :
    (parse_requirements c5Text).non_functional = []
    ∧ (parse_requirements c5Text).functional
      = [ ⟨ "FR-1", "Functional", "System responds within two seconds" ⟩ ] := by
  decide

/-- Claim C7, counterexample: a separator line of fewer than three dashes
does not split the response, so two otherwise complete story blocks
around it yield a single story, not two. -/
theorem c7_story_split_counterexample :
    story_blocks (c7BlockA ++ "\n--\n" ++ c7BlockB)
      = [ (c7BlockA ++ "\n--\n" ++ c7BlockB).data ]
    ∧ parse_user_stories (c7BlockA ++ "\n--\n" ++ c7BlockB) = [ c7StoryA ]
    ∧ (parse_user_stories (c7BlockA ++ "\n--\n" ++ c7BlockB)).length ≠ 2 := by
  decide

/-- Claim C7 (amended): the split happens at separator lines of three or
more dashes; a split block whose trimmed length is below 50 characters is
skipped, so a response whose second block is 30 characters long yields
exactly one story. -/
theorem c7_story_split_amended :
    story_blocks (c7BlockA ++ "\n---\n" ++ c7ShortB)
      = [ c7BlockA.data, c7ShortB.data ]
    ∧ (pyStripL c7ShortB.data).length = 30
    ∧ parse_user_stories (c7BlockA ++ "\n---\n" ++ c7ShortB) = [ c7StoryA ] := by
  decide

/-- Claim C8, counterexample: when the alternative parse supplies the
returned structure, a bulleted line of 21 dashes and one letter is kept
as the one-character description a, which is far below the ten-character
bound of the claim. -/
theorem c8_description_counterexample :
    (extract_result c8Text).functional = [ ⟨ "FR-001", "Functional", "a" ⟩ ]
    ∧ ¬ 10 < ( "a" : String).length := by
  decide

/-- Claim C9, counterexample: an embedded double quote in a title is
written to the row unescaped, and the resulting record no longer parses
as a CSV row at all. -/
theorem c9_jira_csv_counterexample :
    jiraRow c9Story
      = "\"He said \"hi\" and left\",\"As a user I want quotes\",High,2,Story"
    ∧ parse_csv_row (jiraRow c9Story).data = none := by
  decide

/-- listPre decides the prefix relation. -/
theorem listPre_iff (n h : List Char) : listPre n h = true ↔ n <+: h := by
  induction n generalizing h with
  | nil => simp [listPre]
  | cons a n ih =>
    cases h with
    | nil => simp [listPre]
    | cons b t => simp [listPre, ih, List.cons_prefix_cons]

/-- subB decides the infix relation. -/
theorem subB_iff (n h : List Char) : subB n h = true ↔ n <:+: h := by
  induction h with
  | nil => simp [subB, listPre_iff]
  | cons c t ih => simp [subB, listPre_iff, ih, List.infix_cons_iff]

/-- Containment of a longer marker implies containment of any infix of
it. -/
theorem subB_mono {a b s : List Char} (hab : a <:+: b) (hb : subB b s = true) :
    subB a s = true :=
  (subB_iff a s).mpr (hab.trans ((subB_iff b s).mp hb))

/-- Claim C5 (amended): classification is an exact-case substring test of
the listed spellings over the whole section text, with the functional
test evaluated first; since the functional marker is an infix of every
listed non-functional marker, any section containing one of the
non-functional spellings already passes the functional test (so the
non-functional branch is unreachable for them), and all-lowercase
headers match neither test. -/
theorem c5_classification_amended :
    (∀ s : List Char, subB "Non-Functional Requirements".data s = true →
        isFunctionalSection s = true)
    ∧ (∀ s : List Char, subB "NON-FUNCTIONAL REQUIREMENTS".data s = true →
        isFunctionalSection s = true)
    ∧ (∀ s : List Char, subB "Non Functional Requirements".data s = true →
        isFunctionalSection s = true)
    ∧ isFunctionalSection "functional requirements".data = false
    ∧ isNonFunctionalSection "non-functional requirements".data = false := by
  refine ⟨?_, ?_, ?_, by decide, by decide⟩
  · intro s hs
    have h1 : subB "Functional Requirements".data s = true :=
      subB_mono ((subB_iff _ _).mp (by decide)) hs
    simp [isFunctionalSection, h1]
  · intro s hs
    have h1 : subB "FUNCTIONAL REQUIREMENTS".data s = true :=
      subB_mono ((subB_iff _ _).mp (by decide)) hs
    simp [isFunctionalSection, h1]
  · intro s hs
    have h1 : subB "Functional Requirements".data s = true :=
      subB_mono ((subB_iff _ _).mp (by decide)) hs
    simp [isFunctionalSection, h1]

/-- Witness for c5_classification_amended at a concrete section text. -/
theorem c5_classification_witness :
    subB "Non-Functional Requirements".data
        "Here are the Non-Functional Requirements of the system".data = true
    ∧ isFunctionalSection
        "Here are the Non-Functional Requirements of the system".data = true :=
  ⟨by decide,
    c5_classification_amended.1
      "Here are the Non-Functional Requirements of the system".data (by decide)⟩

/-- Every word produced by the whitespace splitter is non-empty and free
of whitespace, provided the pending accumulator is. -/
theorem splitWSAux_good (s : List Char) :
    ∀ acc : List Char, (∀ c ∈ acc, pySpace c = false) →
      ∀ w ∈ splitWSAux s acc, goodWord w := by
  induction s with
  | nil =>
    intro acc hacc w hw
    simp only [splitWSAux] at hw
    split at hw
    · simp at hw
    · next hne =>
      simp only [List.mem_singleton] at hw
      subst hw
      refine ⟨by simpa using hne, ?_⟩
      intro c hc
      exact hacc c (List.mem_reverse.mp hc)
  | cons c t ih =>
    intro acc hacc w hw
    simp only [splitWSAux] at hw
    by_cases hsp : pySpace c
    · rw [if_pos hsp] at hw
      split at hw
      · exact ih [] (by simp) w hw
      · next hne =>
        rcases List.mem_cons.mp hw with h | h
        · subst h
          exact ⟨by simpa using hne, fun d hd => hacc d (List.mem_reverse.mp hd)⟩
        · exact ih [] (by simp) w h
    · rw [if_neg hsp] at hw
      refine ih (c :: acc) ?_ w hw
      intro d hd
      rcases List.mem_cons.mp hd with h | h
      · subst h; simpa using hsp
      · exact hacc d h

/-- Every word of splitWS is good. -/
theorem splitWS_good (s : List Char) : ∀ w ∈ splitWS s, goodWord w :=
  splitWSAux_good s [] (by simp)

/-- Scanning a whitespace-free word just moves it into the
accumulator. -/
theorem splitWSAux_word (w : List Char) :
    ∀ (acc r : List Char), (∀ c ∈ w, pySpace c = false) →
      splitWSAux (w ++ r) acc = splitWSAux r (w.reverse ++ acc) := by
  induction w with
  | nil => intro acc r _; simp
  | cons c t ih =>
    intro acc r h
    have hc : pySpace c = false := h c (by simp)
    simp only [List.cons_append, splitWSAux, hc, Bool.false_eq_true, if_false]
    show splitWSAux (t ++ r) (c :: acc) = splitWSAux r ((c :: t).reverse ++ acc)
    rw [ih (c :: acc) r (fun d hd => h d (by simp [hd]))]
    simp

/-- Splitting the space-joined form of a good word list recovers the
list. -/
theorem splitWS_joinSp (ws : List (List Char)) (hws : ∀ w ∈ ws, goodWord w) :
    splitWS (joinSp ws) = ws := by
  induction ws with
  | nil => rfl
  | cons w ws' ih =>
    have hw : goodWord w := hws w (by simp)
    cases ws' with
    | nil =>
      show splitWS (joinSp [w]) = [w]
      have : joinSp [w] = w ++ [] := by simp [joinSp]
      rw [splitWS, this, splitWSAux_word w [] [] hw.2]
      simp only [splitWSAux]
      rw [if_neg (by simpa using hw.1)]
      simp
    | cons v ws'' =>
      show splitWS (w ++ ' ' :: joinSp (v :: ws'')) = w :: v :: ws''
      rw [splitWS, splitWSAux_word w [] _ hw.2]
      simp only [splitWSAux]
      rw [if_pos (by decide)]
      rw [if_neg (by simpa using hw.1)]
      simp only [List.append_nil, List.reverse_reverse]
      rw [show splitWSAux (joinSp (v :: ws'')) [] = splitWS (joinSp (v :: ws'')) from rfl]
      rw [ih (fun u hu => hws u (by simp [hu]))]

/-- collapseWSL is idempotent. -/
theorem collapseWSL_idem (x : List Char) :
    collapseWSL (collapseWSL x) = collapseWSL x := by
  unfold collapseWSL
  rw [splitWS_joinSp (splitWS x) (splitWS_good x)]

/-- The space-joined form of a good word list starts with a
non-whitespace character when non-empty. -/
theorem joinSp_head (ws : List (List Char)) (hws : ∀ w ∈ ws, goodWord w)
    (hne : ws ≠ []) : ∃ c t, joinSp ws = c :: t ∧ pySpace c = false := by
  cases ws with
  | nil => exact absurd rfl hne
  | cons w ws' =>
    have hw : goodWord w := hws w (by simp)
    obtain ⟨c, w', hw'⟩ := List.exists_cons_of_ne_nil hw.1
    have hc : pySpace c = false := hw.2 c (by simp [hw'])
    cases ws' with
    | nil => exact ⟨c, w', by simp [joinSp, hw'], hc⟩
    | cons v ws'' =>
      exact ⟨c, w' ++ ' ' :: joinSp (v :: ws''), by simp [joinSp, hw'], hc⟩

/-- The space-joined form of a good word list ends with a non-whitespace
character when non-empty. -/
theorem joinSp_rev_head (ws : List (List Char)) (hws : ∀ w ∈ ws, goodWord w)
    (hne : ws ≠ []) :
    ∃ c t, (joinSp ws).reverse = c :: t ∧ pySpace c = false := by
  induction ws with
  | nil => exact absurd rfl hne
  | cons w ws' ih =>
    have hw : goodWord w := hws w (by simp)
    cases ws' with
    | nil =>
      rcases hr : w.reverse with _ | ⟨c, t⟩
      · exact absurd (by simpa using congrArg List.reverse hr) hw.1
      · refine ⟨c, t, by simpa [joinSp] using hr, ?_⟩
        have : c ∈ w.reverse := by simp [hr]
        exact hw.2 c (List.mem_reverse.mp this)
    | cons v ws'' =>
      obtain ⟨c, t, hct, hc⟩ := ih (fun u hu => hws u (by simp [hu])) (by simp)
      refine ⟨c, t ++ ' ' :: w.reverse, ?_, hc⟩
      show (w ++ ' ' :: joinSp (v :: ws'')).reverse = c :: (t ++ ' ' :: w.reverse)
      rw [List.reverse_append, List.reverse_cons]
      rw [hct]
      simp

/-- Stripping the space-joined form of a good word list is a no-op. -/
theorem pyStripL_joinSp (ws : List (List Char)) (hws : ∀ w ∈ ws, goodWord w) :
    pyStripL (joinSp ws) = joinSp ws := by
  by_cases hne : ws = []
  · subst hne; rfl
  · obtain ⟨c, t, hct, hc⟩ := joinSp_head ws hws hne
    obtain ⟨d, u, hdu, hd⟩ := joinSp_rev_head ws hws hne
    unfold pyStripL
    rw [hct, List.dropWhile_cons, if_neg (by simp [hc]), ← hct]
    rw [hdu, List.dropWhile_cons, if_neg (by simp [hd]), ← hdu]
    exact List.reverse_reverse _

/-- Stripping a collapsed string is a no-op. -/
theorem pyStripL_collapseWSL (x : List Char) :
    pyStripL (collapseWSL x) = collapseWSL x :=
  pyStripL_joinSp (splitWS x) (splitWS_good x)

/-- Every requirement record emitted by the match-processing loop carries
a collapsed, trimmed description longer than ten characters. -/
theorem c8_process_match (p : List Char) (m : List Char × List Char)
    (r : Requirement) (h : process_match p m = some r) :
    collapseWSL r.description.data = r.description.data
    ∧ pyStripL r.description.data = r.description.data
    ∧ 10 < r.description.length := by
  simp only [process_match] at h
  split at h
  · next hc =>
    cases h
    exact ⟨collapseWSL_idem _, pyStripL_collapseWSL _, hc.2⟩
  · exact absurd h (by simp)

/-- Claim C8 (amended): every requirement from the structured parse path
(any pattern strategy or the line-scan fallback) has a
whitespace-collapsed, trimmed description of length strictly over 10;
the alternative parse path performs no collapse and no ten-character
gate, and can emit a one-character description. -/
theorem c8_description_amended :
    (∀ (sec p : String) (r : Requirement), r ∈ extract_requirement_items sec p →
        collapseWSL r.description.data = r.description.data
        ∧ pyStripL r.description.data = r.description.data
        ∧ 10 < r.description.length)
    ∧ (alternative_parse c8Text).functional = [ ⟨ "FR-001", "Functional", "a" ⟩ ] := by
  constructor
  · intro sec p r hr
    simp only [extract_requirement_items] at hr
    rcases List.mem_filterMap.mp hr with ⟨m, _, hm⟩
    exact c8_process_match p.data m r hm
  · decide

/-- Witness for c8_description_amended at a concrete section. -/
theorem c8_description_witness :
    ( ⟨ "FR-1", "Functional", "Users can log in with email" ⟩ : Requirement)
        ∈ extract_requirement_items "- FR-1: Users can log in with email" "FR"
    ∧ (collapseWSL ( ⟨ "FR-1", "Functional", "Users can log in with email" ⟩ : Requirement).description.data
          = ( ⟨ "FR-1", "Functional", "Users can log in with email" ⟩ : Requirement).description.data
      ∧ pyStripL ( ⟨ "FR-1", "Functional", "Users can log in with email" ⟩ : Requirement).description.data
          = ( ⟨ "FR-1", "Functional", "Users can log in with email" ⟩ : Requirement).description.data
      ∧ 10 < ( ⟨ "FR-1", "Functional", "Users can log in with email" ⟩ : Requirement).description.length) :=
  ⟨by decide,
    c8_description_amended.1 "- FR-1: Users can log in with email" "FR"
      ⟨ "FR-1", "Functional", "Users can log in with email" ⟩ (by decide)⟩

/-- Round trip of List.asString. -/
theorem data_asString (l : List Char) : (List.asString l).data = l := rfl

/-- A decimal digit character is none of the CSV-relevant separators. -/
theorem digitChar_props (d : Nat) (hd : d < 10) :
    digitChar d ≠ ',' ∧ digitChar d ≠ '"' ∧ digitChar d ≠ '\n' := by
  interval_cases d <;> exact ⟨by decide, by decide, by decide⟩

/-- Characters of the decimal printer are never separators. -/
theorem natReprAux_props (fuel : Nat) :
    ∀ n, ∀ c ∈ natReprAux fuel n, c ≠ ',' ∧ c ≠ '"' ∧ c ≠ '\n' := by
  induction fuel with
  | zero =>
    intro n c hc
    simp only [natReprAux, List.mem_singleton] at hc
    subst hc
    exact digitChar_props _ (Nat.mod_lt _ (by omega))
  | succ fuel ih =>
    intro n c hc
    simp only [natReprAux] at hc
    split at hc
    · next h =>
      simp only [List.mem_singleton] at hc
      subst hc
      exact digitChar_props n h
    · rcases List.mem_append.mp hc with h | h
      · exact ih _ c h
      · simp only [List.mem_singleton] at h
        subst h
        exact digitChar_props _ (Nat.mod_lt _ (by omega))

/-- Characters of Python str(n) are never separators. -/
theorem natReprL_props (n : Nat) :
    ∀ c ∈ natReprL n, c ≠ ',' ∧ c ≠ '"' ∧ c ≠ '\n' :=
  natReprAux_props n n

/-- Splitting a newline-free text on newlines keeps it whole. -/
theorem pyLinesL_no_nl (l : List Char) (h : '\n' ∈ l → False) :
    pyLinesL l = [l] := by
  induction l with
  | nil => rfl
  | cons c t ih =>
    have hc : ¬ c = '\n' := fun e => h (by simp [e])
    have ht : pyLinesL t = [t] := ih (fun m => h (by simp [m]))
    simp only [pyLinesL, if_neg hc, ht]

/-- The newline split never returns an empty list of lines. -/
theorem pyLinesL_ne_nil (l : List Char) : pyLinesL l ≠ [] := by
  cases l with
  | nil => simp [pyLinesL]
  | cons c t =>
    simp only [pyLinesL]
    split
    · simp
    · rcases h : pyLinesL t with _ | ⟨x, xs⟩ <;> simp [h]

/-- Peeling one newline-free line off the newline split. -/
theorem pyLinesL_append (a : List Char) (h : '\n' ∈ a → False) :
    ∀ b, pyLinesL (a ++ '\n' :: b) = a :: pyLinesL b := by
  induction a with
  | nil => intro b; simp [pyLinesL]
  | cons c t ih =>
    intro b
    have hc : ¬ c = '\n' := fun e => h (by simp [e])
    have ht := ih (fun m => h (by simp [m])) b
    obtain ⟨l, ls, hls⟩ := List.exists_cons_of_ne_nil (pyLinesL_ne_nil b)
    show pyLinesL (c :: (t ++ '\n' :: b)) = (c :: t) :: pyLinesL b
    simp only [pyLinesL, if_neg hc, ht, hls]

/-- The newline split of a newline-free join recovers the lines. -/
theorem pyLinesL_joinNL (x : String) (l : List String) :
    ('\n' ∈ x.data → False) → (∀ y ∈ l, '\n' ∈ y.data → False) →
    pyLinesL (joinNL (x :: l)).data = x.data :: l.map String.data := by
  induction l generalizing x with
  | nil =>
    intro hx _
    show pyLinesL x.data = _
    simp [pyLinesL_no_nl x.data hx]
  | cons y l' ih =>
    intro hx hl
    show pyLinesL (x ++ "\n" ++ joinNL (y :: l')).data = _
    rw [String.data_append, String.data_append,
      show ( "\n" : String).data = ['\n'] from rfl, List.append_assoc,
      List.singleton_append, pyLinesL_append x.data hx,
      ih y (hl y (by simp)) (fun z hz => hl z (by simp [hz]))]
    simp

/-- A formatted JIRA row contains no newline when the story fields are
newline-free. -/
theorem jiraRow_no_nl (st : Story) (hn : rowNLFree st) :
    '\n' ∈ (jiraRow st).data → False := by
  intro hm
  simp only [jiraRow, String.data_append, data_asString, List.mem_append,
    or_assoc] at hm
  rcases hm with h | h | h | h | h | h | h | h | h
  · exact absurd h (by decide)
  · exact hn.1 h
  · exact absurd h (by decide)
  · exact hn.2.1 h
  · exact absurd h (by decide)
  · exact hn.2.2 h
  · exact absurd h (by decide)
  · exact (natReprL_props st.story_points '\n' h).2.2 rfl
  · exact absurd h (by decide)

/-- The line structure of format_for_jira: a header line followed by one
row line per story in order, for newline-free stories. -/
theorem c9_lines (sts : List Story) (h : ∀ st ∈ sts, rowNLFree st) :
    pyLinesL (format_for_jira sts).data
      = jiraHeader.data :: sts.map (fun st => (jiraRow st).data) := by
  unfold format_for_jira
  rw [pyLinesL_joinNL jiraHeader (sts.map jiraRow) (by decide) ?rows]
  case rows =>
    intro y hy
    rcases List.mem_map.mp hy with ⟨st, hst, rfl⟩
    exact jiraRow_no_nl st (h st hst)
  simp [List.map_map, Function.comp]

/-- Reading a quoted field: a quote-free payload ends at the first
closing quote, provided no escaped quote follows it. -/
theorem csvScan_inq (t : List Char) :
    ∀ (r cur : List Char) (fs : List (List Char)),
      ('"' ∈ t → False) → r.head? ≠ some '"' →
      csvScan .inq (t ++ '"' :: r) cur fs
        = csvScan .postq r (t.reverse ++ cur) fs := by
  induction t with
  | nil =>
    intro r cur fs _ hr
    cases r with
    | nil => rfl
    | cons d r' =>
      have hd : ¬ d = '"' := fun e => hr (by simp [e])
      simp [csvScan, hd]
  | cons c t' ih =>
    intro r cur fs ht hr
    have hc : ¬ c = '"' := fun e => ht (by simp [e])
    show csvScan .inq (c :: (t' ++ '"' :: r)) cur fs = _
    rw [show csvScan .inq (c :: (t' ++ '"' :: r)) cur fs
        = csvScan .inq (t' ++ '"' :: r) (c :: cur) fs from by simp [csvScan, hc]]
    rw [ih r (c :: cur) fs (fun m => ht (by simp [m])) hr]
    simp

/-- Reading an unquoted terminal field. -/
theorem csvScan_unq_end (f : List Char) :
    ∀ (cur : List Char) (fs : List (List Char)),
      (∀ c ∈ f, c ≠ ',' ∧ c ≠ '"') →
      csvScan .unq f cur fs = some (((cur.reverse ++ f) :: fs).reverse) := by
  induction f with
  | nil => intro cur fs _; simp [csvScan]
  | cons c f' ih =>
    intro cur fs h
    have h1 := h c (by simp)
    show csvScan .unq (c :: f') cur fs = _
    rw [show csvScan .unq (c :: f') cur fs = csvScan .unq f' (c :: cur) fs from by
      simp [csvScan, h1.1, h1.2]]
    rw [ih (c :: cur) fs (fun d hd => h d (by simp [hd]))]
    simp

/-- Reading an unquoted field up to its separating comma. -/
theorem csvScan_unq_comma (f : List Char) :
    ∀ (r cur : List Char) (fs : List (List Char)),
      (∀ c ∈ f, c ≠ ',' ∧ c ≠ '"') →
      csvScan .unq (f ++ ',' :: r) cur fs
        = csvScan .start r [] ((cur.reverse ++ f) :: fs) := by
  induction f with
  | nil => intro r cur fs _; simp [csvScan]
  | cons c f' ih =>
    intro r cur fs h
    have h1 := h c (by simp)
    show csvScan .unq (c :: (f' ++ ',' :: r)) cur fs = _
    rw [show csvScan .unq (c :: (f' ++ ',' :: r)) cur fs
        = csvScan .unq (f' ++ ',' :: r) (c :: cur) fs from by
      simp [csvScan, h1.1, h1.2]]
    rw [ih r (c :: cur) fs (fun d hd => h d (by simp [hd]))]
    simp

/-- A field-start comma-terminated unquoted field. -/
theorem csvScan_start_unq (f : List Char) (r : List Char)
    (fs : List (List Char)) (h : ∀ c ∈ f, c ≠ ',' ∧ c ≠ '"') :
    csvScan .start (f ++ ',' :: r) [] fs = csvScan .start r [] (f :: fs) := by
  cases f with
  | nil => simp [csvScan]
  | cons c f' =>
    have h1 := h c (by simp)
    show csvScan .start (c :: (f' ++ ',' :: r)) [] fs = _
    rw [show csvScan .start (c :: (f' ++ ',' :: r)) [] fs
        = csvScan .unq (f' ++ ',' :: r) (c :: []) fs from by
      simp [csvScan, h1.1, h1.2]]
    rw [csvScan_unq_comma f' r (c :: []) fs (fun d hd => h d (by simp [hd]))]
    simp

/-- A field-start terminal unquoted field. -/
theorem csvScan_start_end (f : List Char) (fs : List (List Char))
    (h : ∀ c ∈ f, c ≠ ',' ∧ c ≠ '"') :
    csvScan .start f [] fs = some ((f :: fs).reverse) := by
  cases f with
  | nil => simp [csvScan]
  | cons c f' =>
    have h1 := h c (by simp)
    rw [show csvScan .start (c :: f') [] fs
        = csvScan .unq f' (c :: []) fs from by simp [csvScan, h1.1, h1.2]]
    rw [csvScan_unq_end f' (c :: []) fs (fun d hd => h d (by simp [hd]))]
    simp

/-- After a closing quote, a comma opens the next field. -/
theorem csvScan_postq_comma (r cur : List Char) (fs : List (List Char)) :
    csvScan .postq (',' :: r) cur fs = csvScan .start r [] (cur.reverse :: fs) := by
  simp [csvScan]

/-- A field-start opening quote enters the quoted state. -/
theorem csvScan_start_quote (X cur : List Char) (fs : List (List Char)) :
    csvScan .start ('"' :: X) cur fs = csvScan .inq X cur fs := by
  simp [csvScan]

/-- The general row-parse result of the JIRA formatter for stories whose
title and narrative contain no double quote and whose priority contains
no separator characters. -/
theorem c9_row_parse (st : Story)
    (h1 : '"' ∈ st.title.data → False) (h2 : '"' ∈ st.user_story.data → False)
    (h3 : ∀ c ∈ st.priority.data, c ≠ ',' ∧ c ≠ '"') :
    parse_csv_row (jiraRow st).data
      = some [st.title.data, st.user_story.data, st.priority.data,
          natReprL st.story_points, ( "Story" : String).data] := by
  have hrow : (jiraRow st).data
      = '"' :: (st.title.data ++ '"' :: (',' :: ('"' :: (st.user_story.data
        ++ '"' :: (',' :: (st.priority.data ++ ',' :: (natReprL st.story_points
        ++ ',' :: ( "Story" : String).data))))))) := by
    simp [jiraRow, String.data_append, data_asString,
      show ( "\"" : String).data = ['"'] from rfl,
      show ( "\",\"" : String).data = ['"', ',', '"'] from rfl,
      show ( "\"," : String).data = ['"', ','] from rfl,
      show ( "," : String).data = [','] from rfl,
      show ( ",Story" : String).data = ',' :: ( "Story" : String).data from rfl]
  rw [parse_csv_row, hrow, csvScan_start_quote,
    csvScan_inq st.title.data _ _ _ h1 (by simp), csvScan_postq_comma]
  simp only [List.append_nil, List.reverse_reverse]
  rw [csvScan_start_quote,
    csvScan_inq st.user_story.data _ _ _ h2 (by simp), csvScan_postq_comma]
  simp only [List.append_nil, List.reverse_reverse]
  rw [csvScan_start_unq st.priority.data _ _ h3]
  rw [csvScan_start_unq (natReprL st.story_points) _ _
    (fun c hc => ⟨(natReprL_props _ c hc).1, (natReprL_props _ c hc).2.1⟩)]
  rw [csvScan_start_end ( "Story" : String).data _ (by decide)]
  simp

/-- Claim C9 (amended): the output is the fixed header line followed by
one CSV row per story in input order (for newline-free field values);
title and narrative are wrapped in double quotes, so embedded commas
cannot break the row structure, but embedded double quotes are not
escaped, so the guarantee only holds for quote-free titles and
narratives (see the counterexample for the quote case). -/
theorem c9_jira_csv_amended :
    (∀ sts : List Story, (∀ st ∈ sts, rowNLFree st) →
        pyLinesL (format_for_jira sts).data
          = jiraHeader.data :: sts.map (fun st => (jiraRow st).data))
    ∧ (∀ st : Story, ('"' ∈ st.title.data → False) →
        ('"' ∈ st.user_story.data → False) →
        (∀ c ∈ st.priority.data, c ≠ ',' ∧ c ≠ '"') →
        parse_csv_row (jiraRow st).data
          = some [st.title.data, st.user_story.data, st.priority.data,
              natReprL st.story_points, ( "Story" : String).data]) :=
  ⟨c9_lines, c9_row_parse⟩

/-- Witness for c9_jira_csv_amended at a concrete story. -/
theorem c9_jira_csv_witness :
    ((∀ st ∈ [c7StoryA], rowNLFree st)
      ∧ ('"' ∈ c7StoryA.title.data → False)
      ∧ ('"' ∈ c7StoryA.user_story.data → False)
      ∧ (∀ c ∈ c7StoryA.priority.data, c ≠ ',' ∧ c ≠ '"'))
    ∧ pyLinesL (format_for_jira [c7StoryA]).data
        = jiraHeader.data :: [c7StoryA].map (fun st => (jiraRow st).data)
    ∧ parse_csv_row (jiraRow c7StoryA).data
        = some [c7StoryA.title.data, c7StoryA.user_story.data,
            c7StoryA.priority.data, natReprL c7StoryA.story_points,
            ( "Story" : String).data] :=
  by
  have hms : ∀ st ∈ [c7StoryA], rowNLFree st := by
    intro st hst
    simp only [List.mem_singleton] at hst
    subst hst
    exact ⟨by decide, by decide, by decide⟩
  exact ⟨⟨hms, by decide, by decide, by decide⟩,
    c9_jira_csv_amended.1 [c7StoryA] hms,
    c9_jira_csv_amended.2 c7StoryA (by decide) (by decide) (by decide)⟩
